import Mathlib

/-!
# Verification of the VerilogScraper async pipeline (`src/scrapeAll.py`)

Shallow embedding of the recursive tree-walking + idempotent-upload pipeline.
HTTP endpoints are modelled as explicit response environments (one response per
request the code would issue); Python strings are modelled as `List Char` where
structural reasoning is needed and as `String` elsewhere; JSON objects are
modelled as association lists of string key/value pairs (only string-valued
fields are ever read by the code).
-/

namespace VerilogScraper

/-- Result of one HTTP request: a response with a status code and a parsed
body, or an exception (network error or parse error inside the `try`). -/
inductive HttpResult (α : Type) where
  | resp : Nat → α → HttpResult α
  | exn : HttpResult α
deriving DecidableEq

/-- Embedding of `fetch_json` (src/scrapeAll.py lines 39-51): on status 200
return the parsed body, on any other status return `None`, on an exception
return `None`; the function is total (never raises). -/
def fetch_json {α : Type} (r : HttpResult α) : Option α :=
  match r with
  | .resp status body => if status = 200 then some body else none
  | .exn => none

/-! ## Path construction (src/scrapeAll.py lines 68-76) -/

/-- Embedding of `repo_full_name.replace("/", "_")` (the pattern is a single
character, so the replacement is a character map). -/
def replaceSlash (s : List Char) : List Char :=
  s.map fun c => if c = '/' then '_' else c

/-- Embedding of `os.path.dirname` (POSIX): take everything up to and
including the last '/', then strip trailing slashes unless the head is empty
or consists only of slashes. -/
def dirname (p : List Char) : List Char :=
  let i : Nat :=
    match p.reverse.findIdx? (fun c => c = '/') with
    | some j => p.length - j
    | none => 0
  let head := p.take i
  if head ≠ [] ∧ head ≠ List.replicate head.length '/' then
    (head.reverse.dropWhile (fun c => c = '/')).reverse
  else head

/-- Embedding of the destination-path construction of
`upload_verilog_file_to_target` (lines 68-76):
`verilog_data/{repo_dir}/{relative_dir}/{file_name}` when the relative
directory is non-empty, else `verilog_data/{repo_dir}/{file_name}`. -/
def target_path (repo_full_name file_path file_name : List Char) : List Char :=
  let repo_dir := replaceSlash repo_full_name
  let relative_dir := dirname file_path
  if relative_dir ≠ [] then
    "verilog_data/".toList ++ repo_dir ++ ['/'] ++ relative_dir ++ ['/'] ++ file_name
  else
    "verilog_data/".toList ++ repo_dir ++ ['/'] ++ file_name

/-! ## base64 encoding (src/scrapeAll.py line 66) -/

/-- The RFC 4648 base64 alphabet. -/
def b64Alphabet : List Char :=
  "ABCDEFGHIJKLMNOPQRSTUVWXYZabcdefghijklmnopqrstuvwxyz0123456789+/".toList

/-- Character for one 6-bit group. -/
def b64Char (n : Nat) : Char := b64Alphabet.getD n 'A'

/-- Embedding of `base64.b64encode` over a byte list (bytes as `Nat < 256`). -/
def base64Encode : List Nat → List Char
  | [] => []
  | [a] =>
      let n := a % 256 * 65536
      [b64Char (n / 262144), b64Char (n / 4096 % 64), '=', '=']
  | [a, b] =>
      let n := a % 256 * 65536 + b % 256 * 256
      [b64Char (n / 262144), b64Char (n / 4096 % 64), b64Char (n / 64 % 64), '=']
  | a :: b :: c :: rest =>
      let n := a % 256 * 65536 + b % 256 * 256 + c % 256
      [b64Char (n / 262144), b64Char (n / 4096 % 64), b64Char (n / 64 % 64),
        b64Char (n % 64)] ++ base64Encode rest

/-! ## JSON objects as association lists -/

/-- A parsed JSON object: association list of string fields. -/
abbrev Dict := List (String × String)

/-- Field lookup in a JSON object (first binding wins). -/
def dictLookup (key : String) : Dict → Option String
  | [] => none
  | (k, v) :: rest => if k = key then some v else dictLookup key rest

/-! ## Upsert uploader (`upload_verilog_file_to_target`, src/scrapeAll.py lines 53-141)

The four HTTP interactions of the function are modelled as explicit inputs:
the content download, the destination-existence check (GET), one PUT response
per write attempt (indexed by the attempt number), and one GET response per
conflict re-fetch (indexed by the attempt number it follows). -/

/-- Result of the content download (`session.get(download_url)`):
a status with the raw bytes, or an exception. -/
inductive DownloadResult where
  | resp : Nat → List Nat → DownloadResult
  | exn : DownloadResult
deriving DecidableEq

/-- Result of one write attempt (`session.put`): a status, or an exception
raised anywhere inside the attempt's `try`. -/
inductive PutResult where
  | resp : Nat → PutResult
  | exn : PutResult
deriving DecidableEq

/-- Result of a destination GET (existence check or conflict re-fetch):
a status with the parsed JSON object, or an exception. -/
inductive GetResult where
  | resp : Nat → Dict → GetResult
  | exn : GetResult
deriving DecidableEq

/-- The write payload (lines 101-108): `message`, base64 `content`, `branch`,
and the optional `sha` version token (absent field = `none`). -/
structure Payload where
  message : List Char
  content : List Char
  branch : String
  sha : Option String
deriving DecidableEq

/-- Terminal state of one upload task, identified by the exit path taken. -/
inductive UploadOutcome where
  | downloadFailed
  | downloadException
  | uploaded
  | conflictExhausted
  | permanentFailure
  | exceptionExhausted
deriving DecidableEq

/-- Observable behaviour of one upload task: the terminal outcome, the
backoff delays slept (in order), and the payload used at each executed
write attempt (in order). -/
structure UploadResult where
  outcome : UploadOutcome
  delays : List Nat
  attemptPayloads : List Payload
deriving DecidableEq

/-- Target branch (`TARGET_BRANCH`, line 29). -/
def TARGET_BRANCH : String := "data_collection"

/-- Retry budget (`max_retries`, line 114). -/
def max_retries : Nat := 3

/-- The existence check (lines 82-90): `existing_file` is the parsed body
when the GET returns 200, and `None` on any other status or exception. -/
def parseCheckResponse (check : GetResult) : Option Dict :=
  match check with
  | .resp status body => if status = 200 then some body else none
  | .exn => none

/-- Payload construction (lines 101-109): base fields always present; the
`sha` field added only when `existing_file` is truthy and has a `"sha"` key
(`if existing_file and "sha" in existing_file`). -/
def initialPayload (tp encoded_content : List Char) (existing_file : Option Dict) :
    Payload :=
  let payload : Payload :=
    { message := "Add/update ".toList ++ tp
      content := encoded_content
      branch := TARGET_BRANCH
      sha := none }
  match existing_file with
  | some d =>
      if ¬ d = [] ∧ (dictLookup "sha" d).isSome then
        { payload with sha := dictLookup "sha" d }
      else payload
  | none => payload

/-- The conflict re-fetch (lines 123-130): on a 200 response whose body is
truthy and has a `"sha"` key, overwrite `payload["sha"]` with the fresh
token; on any other status or exception the payload is left unchanged. -/
def refetchSha (r : GetResult) (payload : Payload) : Payload :=
  match r with
  | .resp status latest_file =>
      if status = 200 then
        if ¬ latest_file = [] ∧ (dictLookup "sha" latest_file).isSome then
          { payload with sha := dictLookup "sha" latest_file }
        else payload
      else payload
  | .exn => payload

/-- The write-retry loop (lines 114-141): `for attempt in range(1,
max_retries + 1)` with `retry_delay` starting at 1 and doubling after each
sleep. `fuel` is the number of loop iterations left (initially
`max_retries`). Status in (200, 201): return success. Status 409: if
attempts remain, re-fetch the token, sleep `retry_delay`, double it and
retry; otherwise the loop falls through (conflict budget exhausted). Any
other status: return failure immediately. Exception: if attempts remain,
sleep `retry_delay`, double it and retry the unchanged payload; otherwise
return failure. -/
def runAttempts (put : Nat → PutResult) (refetch : Nat → GetResult)
    (maxRetries : Nat) : Nat → Nat → Payload → Nat → UploadResult
  | 0, _, _, _ => ⟨.conflictExhausted, [], []⟩
  | fuel + 1, attempt, payload, retry_delay =>
    match put attempt with
    | .resp status =>
      if status = 200 ∨ status = 201 then
        ⟨.uploaded, [], [payload]⟩
      else if status = 409 then
        if attempt < maxRetries then
          let payload' := refetchSha (refetch attempt) payload
          let rest := runAttempts put refetch maxRetries fuel (attempt + 1)
            payload' (retry_delay * 2)
          ⟨rest.outcome, retry_delay :: rest.delays, payload :: rest.attemptPayloads⟩
        else
          ⟨.conflictExhausted, [], [payload]⟩
      else
        ⟨.permanentFailure, [], [payload]⟩
    | .exn =>
      if attempt < maxRetries then
        let rest := runAttempts put refetch maxRetries fuel (attempt + 1)
          payload (retry_delay * 2)
        ⟨rest.outcome, retry_delay :: rest.delays, payload :: rest.attemptPayloads⟩
      else
        ⟨.exceptionExhausted, [], [payload]⟩

/-- Embedding of `upload_verilog_file_to_target` (lines 53-141). Download
failure or exception aborts the task; otherwise the content is
base64-encoded, the destination path computed, the existence check parsed
into the initial payload, and the write-retry loop run with attempt 1 and
initial delay 1. -/
def upload_verilog_file_to_target (download : DownloadResult)
    (check : GetResult) (put : Nat → PutResult) (refetch : Nat → GetResult)
    (repo_full_name file_path file_name : List Char) : UploadResult :=
  match download with
  | .exn => ⟨.downloadException, [], []⟩
  | .resp status content =>
    if status ≠ 200 then ⟨.downloadFailed, [], []⟩
    else
      let encoded_content := base64Encode content
      let tp := target_path repo_full_name file_path file_name
      let existing_file := parseCheckResponse check
      let payload := initialPayload tp encoded_content existing_file
      runAttempts put refetch max_retries max_retries 1 payload 1

/-! ## Tree walker (`get_verilog_files_from_repo`, src/scrapeAll.py lines 144-164) -/

/-- One entry of a directory listing: the fields the walker reads
(`type`, `name`, `path`, `download_url`). -/
structure Item where
  type : String
  name : String
  path : String
  download_url : String
deriving DecidableEq

/-- A parsed listing response: either a single JSON object
(`isinstance(data, dict)`) or a JSON array of entries. -/
inductive ListingData where
  | single : Item → ListingData
  | many : List Item → ListingData
deriving DecidableEq

/-- Embedding of Python `str.endswith`: the second string is a suffix of
the first. -/
def endswith (s suffix : String) : Bool := suffix.toList.isSuffixOf s.toList

/-- One spawned upload: the arguments the walker passes to
`upload_verilog_file_to_target` (download_url, path, name). -/
structure Upload where
  download_url : String
  file_path : String
  file_name : String
deriving DecidableEq

/-- Embedding of `get_verilog_files_from_repo` (lines 144-164). `env` gives
the listing-fetch response for each (branch, path); `fuel` bounds the
recursion depth (the Python recursion is bounded only by the actual tree
depth). An absent listing (`data is None`) skips the subtree. A single
object is normalized to a one-element list (`if isinstance(data, dict):
data = [data]`). Each entry spawns a recursive walk if it is a directory,
an upload if it is a file whose name ends in `.v`, and nothing otherwise;
the result collects the uploads spawned in the whole subtree. -/
def get_verilog_files_from_repo (env : String → String → HttpResult ListingData)
    (branch : String) : Nat → String → List Upload
  | 0, _ => []
  | fuel + 1, path =>
    match fetch_json (env branch path) with
    | none => []
    | some data =>
      let items := match data with
        | ListingData.single d => [d]
        | ListingData.many l => l
      items.flatMap fun item =>
        if item.type = "dir" then
          get_verilog_files_from_repo env branch fuel item.path
        else if item.type = "file" ∧ endswith item.name ".v" = true then
          [⟨item.download_url, item.path, item.name⟩]
        else []

/-- Embedding of `get_repo_default_branch` (lines 166-173): fetch the repo
metadata; if the parsed body is truthy return
`data.get("default_branch", "master")`, otherwise return `"master"`. -/
def get_repo_default_branch (metaFetch : HttpResult Dict) : String :=
  match fetch_json metaFetch with
  | some data => if ¬ data = [] then (dictLookup "default_branch" data).getD "master" else "master"
  | none => "master"

/-- Embedding of `process_repo` (lines 175-179): resolve the default branch,
then walk the repository from the root path `""`. Returns the resolved
branch together with the uploads spawned by the walk. -/
def process_repo (metaFetch : HttpResult Dict)
    (env : String → String → HttpResult ListingData) (fuel : Nat) :
    String × List Upload :=
  let default_branch := get_repo_default_branch metaFetch
  (default_branch, get_verilog_files_from_repo env default_branch fuel "")

/-! ## Helper lemmas -/

/-- `replaceSlash` output never contains a slash. -/
theorem replaceSlash_no_slash (s : List Char) : ∀ c ∈ replaceSlash s, c ≠ '/' := by
  intro c hc
  simp only [replaceSlash, List.mem_map] at hc
  obtain ⟨a, -, rfl⟩ := hc
  by_cases h : a = '/'
  · simp only [if_pos h]; decide
  · simp only [if_neg h]; exact h

/-- Two slash-free lists followed by a slash-separated tail determine each
other: the segment before the first slash is unique. -/
theorem append_slash_left_inj :
    ∀ (a₁ a₂ t₁ t₂ : List Char), (∀ c ∈ a₁, c ≠ '/') → (∀ c ∈ a₂, c ≠ '/') →
      a₁ ++ '/' :: t₁ = a₂ ++ '/' :: t₂ → a₁ = a₂ := by
  intro a₁
  induction a₁ with
  | nil =>
    intro a₂ t₁ t₂ _ h₂ e
    cases a₂ with
    | nil => rfl
    | cons c cs =>
      simp only [List.nil_append, List.cons_append, List.cons.injEq] at e
      exact absurd e.1.symm (h₂ c (List.mem_cons_self c cs))
  | cons c cs ih =>
    intro a₂ t₁ t₂ h₁ h₂ e
    cases a₂ with
    | nil =>
      simp only [List.nil_append, List.cons_append, List.cons.injEq] at e
      exact absurd e.1 (h₁ c (List.mem_cons_self c cs))
    | cons d ds =>
      simp only [List.cons_append, List.cons.injEq] at e
      obtain ⟨hc, hrest⟩ := e
      have hds := ih ds t₁ t₂ (fun x hx => h₁ x (List.mem_cons_of_mem c hx))
        (fun x hx => h₂ x (List.mem_cons_of_mem d hx)) hrest
      rw [hc, hds]

/-- Whatever the first write attempt returns, the payload it was issued with
is the payload the loop was entered with. -/
theorem runAttempts_head_payload (put : Nat → PutResult) (refetch : Nat → GetResult)
    (mr fuel attempt : Nat) (payload : Payload) (delay : Nat) :
    (runAttempts put refetch mr (fuel + 1) attempt payload delay).attemptPayloads.head?
      = some payload := by
  simp only [runAttempts]
  cases hput : put attempt with
  | resp status =>
    by_cases h1 : status = 200 ∨ status = 201
    · simp [h1]
    · by_cases h2 : status = 409
      · by_cases h3 : attempt < mr
        · simp [h1, h2, h3]
        · simp [h1, h2, h3]
      · simp [h1, h2]
  | exn =>
    by_cases h3 : attempt < mr
    · simp [h3]
    · simp [h3]

/-- A successful dictionary lookup implies the dictionary is non-empty. -/
theorem dictLookup_ne_nil {k v : String} {d : Dict}
    (h : dictLookup k d = some v) : ¬ d = [] := by
  intro he
  subst he
  simp [dictLookup] at h

/-! ## Claim C1 -/

/-- C1 (counterexample): the destination-path construction is NOT injective
across distinct source repositories. The repositories `a/b_c` and `a_b/c`
are distinct, yet for the root-level file `f.v` both map to the destination
path `verilog_data/a_b_c/f.v`. -/
theorem C1_counterexample :
    ¬ ("a/b_c".toList = "a_b/c".toList) ∧
      target_path "a/b_c".toList "f.v".toList "f.v".toList =
        target_path "a_b/c".toList "f.v".toList "f.v".toList := by
  constructor
  · decide
  · decide

/-- C1 (amended): the destination-path construction is injective across
source repositories whose slash-to-underscore normalizations differ: if
`replaceSlash r₁ ≠ replaceSlash r₂` then for all source paths and file
names the computed destination paths are never equal. (Mere distinctness of
the raw identifiers is not enough, as `C1_counterexample` shows.) -/
theorem C1_target_path_injective_amended
    (r₁ r₂ p₁ p₂ n₁ n₂ : List Char)
    (hne : replaceSlash r₁ ≠ replaceSlash r₂) :
    target_path r₁ p₁ n₁ ≠ target_path r₂ p₂ n₂ := by
  intro heq
  simp only [target_path] at heq
  apply hne
  split at heq <;> split at heq <;>
  · simp only [List.append_assoc, List.singleton_append] at heq
    exact append_slash_left_inj _ _ _ _
      (replaceSlash_no_slash r₁) (replaceSlash_no_slash r₂)
      (List.append_cancel_left heq)

/-- C1 (witness for the amended theorem): two repositories with distinct
normalized directory names get distinct destination paths. -/
theorem C1_witness :
    target_path "alice/core".toList "rtl/top.v".toList "top.v".toList ≠
      target_path "bob/core".toList "rtl/top.v".toList "top.v".toList :=
  C1_target_path_injective_amended _ _ _ _ _ _ (by decide)

/-! ## Claim C2 -/

/-- C2: when every write attempt returns HTTP 409, the task's terminal
outcome is conflict-exhausted (not success), and the backoff delays are
1 second before attempt 2 and 2 seconds before attempt 3
(`delay(k+1) = 2 * delay(k)`). -/
theorem C2_conflict_exhausted (content : List Nat) (check : GetResult)
    (put : Nat → PutResult) (refetch : Nat → GetResult) (r p n : List Char)
    (hput : ∀ k, put k = PutResult.resp 409) :
    (upload_verilog_file_to_target (DownloadResult.resp 200 content) check
        put refetch r p n).outcome = UploadOutcome.conflictExhausted ∧
      (upload_verilog_file_to_target (DownloadResult.resp 200 content) check
        put refetch r p n).delays = [1, 2] := by
  have hp : put = fun _ => PutResult.resp 409 := funext hput
  subst hp
  exact ⟨rfl, rfl⟩

/-- C2 witness: a concrete all-409 run. -/
theorem C2_witness :
    (upload_verilog_file_to_target (DownloadResult.resp 200 []) GetResult.exn
        (fun _ => PutResult.resp 409) (fun _ => GetResult.exn)
        "a/b".toList "f.v".toList "f.v".toList).outcome
      = UploadOutcome.conflictExhausted ∧
      (upload_verilog_file_to_target (DownloadResult.resp 200 []) GetResult.exn
        (fun _ => PutResult.resp 409) (fun _ => GetResult.exn)
        "a/b".toList "f.v".toList "f.v".toList).delays = [1, 2] :=
  C2_conflict_exhausted [] GetResult.exn _ _ _ _ _ (fun _ => rfl)

/-! ## Claim C3 -/

/-- C3: when the write returns 409 on attempts 1 and 2 and 200 on attempt 3,
the task succeeds, and between consecutive attempts the version token is
re-fetched and the payload updated with the freshest token: attempt 2 is
issued with the token from the first re-fetch and attempt 3 with the token
from the second re-fetch. -/
theorem C3_conflict_then_success (content : List Nat) (check : GetResult)
    (put : Nat → PutResult) (refetch : Nat → GetResult) (r p n : List Char)
    (s₁ s₂ : String)
    (h1 : put 1 = PutResult.resp 409) (h2 : put 2 = PutResult.resp 409)
    (h3 : put 3 = PutResult.resp 200)
    (hr1 : refetch 1 = GetResult.resp 200 [("sha", s₁)])
    (hr2 : refetch 2 = GetResult.resp 200 [("sha", s₂)]) :
    (upload_verilog_file_to_target (DownloadResult.resp 200 content) check
        put refetch r p n).outcome = UploadOutcome.uploaded ∧
      (upload_verilog_file_to_target (DownloadResult.resp 200 content) check
        put refetch r p n).attemptPayloads.map Payload.sha
        = [(initialPayload (target_path r p n) (base64Encode content)
              (parseCheckResponse check)).sha, some s₁, some s₂] := by
  have hp : put = fun k => if k = 1 then PutResult.resp 409
      else if k = 2 then PutResult.resp 409
      else if k = 3 then PutResult.resp 200 else put k := by
    funext k
    by_cases e1 : k = 1
    · subst e1; simp [h1]
    · by_cases e2 : k = 2
      · subst e2; simp [h2]
      · by_cases e3 : k = 3
        · subst e3; simp [e1, e2, h3]
        · simp [e1, e2, e3]
  have hrf : refetch = fun k => if k = 1 then GetResult.resp 200 [("sha", s₁)]
      else if k = 2 then GetResult.resp 200 [("sha", s₂)] else refetch k := by
    funext k
    by_cases e1 : k = 1
    · subst e1; simp [hr1]
    · by_cases e2 : k = 2
      · subst e2; simp [e1, hr2]
      · simp [e1, e2]
  rw [hp, hrf]
  exact ⟨rfl, rfl⟩

/-- C3 witness: a concrete 409/409/200 run re-fetching tokens "t1", "t2". -/
theorem C3_witness :
    (upload_verilog_file_to_target (DownloadResult.resp 200 []) GetResult.exn
        (fun k => if k ≤ 2 then PutResult.resp 409 else PutResult.resp 200)
        (fun k => if k = 1 then GetResult.resp 200 [("sha", "t1")]
          else GetResult.resp 200 [("sha", "t2")])
        "a/b".toList "f.v".toList "f.v".toList).outcome
      = UploadOutcome.uploaded ∧
      (upload_verilog_file_to_target (DownloadResult.resp 200 []) GetResult.exn
        (fun k => if k ≤ 2 then PutResult.resp 409 else PutResult.resp 200)
        (fun k => if k = 1 then GetResult.resp 200 [("sha", "t1")]
          else GetResult.resp 200 [("sha", "t2")])
        "a/b".toList "f.v".toList "f.v".toList).attemptPayloads.map Payload.sha
      = [(initialPayload (target_path "a/b".toList "f.v".toList "f.v".toList)
            (base64Encode []) (parseCheckResponse GetResult.exn)).sha,
          some "t1", some "t2"] :=
  C3_conflict_then_success [] GetResult.exn _ _ _ _ _ "t1" "t2"
    rfl rfl rfl rfl rfl

/-! ## Claim C4 -/

/-- C4: when the destination-existence lookup returns any status other than
200, the first write attempt's payload omits the version token (`sha` is
absent, so the write is a create); when the lookup returns 200 with a body
carrying a `"sha"` token, that token is included in the first payload. -/
theorem C4_absent_creates_present_updates (content : List Nat)
    (put : Nat → PutResult) (refetch : Nat → GetResult) (r p n : List Char) :
    (∀ (s : Nat) (body : Dict), s ≠ 200 →
      ((upload_verilog_file_to_target (DownloadResult.resp 200 content)
          (GetResult.resp s body) put refetch r p n).attemptPayloads.head?).map
          Payload.sha = some none)
  ∧ (∀ (t : String) (body : Dict), dictLookup "sha" body = some t →
      ((upload_verilog_file_to_target (DownloadResult.resp 200 content)
          (GetResult.resp 200 body) put refetch r p n).attemptPayloads.head?).map
          Payload.sha = some (some t)) := by
  constructor
  · intro s body hs
    have hhead : (upload_verilog_file_to_target (DownloadResult.resp 200 content)
        (GetResult.resp s body) put refetch r p n).attemptPayloads.head?
          = some (initialPayload (target_path r p n) (base64Encode content)
              (parseCheckResponse (GetResult.resp s body))) :=
      runAttempts_head_payload put refetch max_retries 2 1 _ 1
    rw [hhead]
    simp [initialPayload, parseCheckResponse, hs]
  · intro t body hlook
    have hbody := dictLookup_ne_nil hlook
    have hhead : (upload_verilog_file_to_target (DownloadResult.resp 200 content)
        (GetResult.resp 200 body) put refetch r p n).attemptPayloads.head?
          = some (initialPayload (target_path r p n) (base64Encode content)
              (parseCheckResponse (GetResult.resp 200 body))) :=
      runAttempts_head_payload put refetch max_retries 2 1 _ 1
    rw [hhead]
    simp [initialPayload, parseCheckResponse, hlook, hbody]

/-- C4 witness: a 404 lookup yields a token-free payload; a 200 lookup with
token "t" yields a payload carrying "t". -/
theorem C4_witness :
    (((upload_verilog_file_to_target (DownloadResult.resp 200 [])
        (GetResult.resp 404 []) (fun _ => PutResult.exn) (fun _ => GetResult.exn)
        "a/b".toList "f.v".toList "f.v".toList).attemptPayloads.head?).map
        Payload.sha = some none)
  ∧ (((upload_verilog_file_to_target (DownloadResult.resp 200 [])
        (GetResult.resp 200 [("sha", "t")]) (fun _ => PutResult.exn)
        (fun _ => GetResult.exn)
        "a/b".toList "f.v".toList "f.v".toList).attemptPayloads.head?).map
        Payload.sha = some (some "t")) :=
  ⟨(C4_absent_creates_present_updates [] _ _ _ _ _).1 404 [] (by decide),
    (C4_absent_creates_present_updates [] _ _ _ _ _).2 "t" [("sha", "t")] rfl⟩

/-! ## Claim C5 -/

/-- C5: `fetch_json` returns the parsed body on HTTP 200, and absent
(`none`) on any other status or on an exception; it is a total function
(never raises). -/
theorem C5_fetch_json_behaviour {α : Type} (b : α) :
    fetch_json (HttpResult.resp 200 b) = some b
  ∧ (∀ s : Nat, s ≠ 200 → fetch_json (HttpResult.resp s b) = none)
  ∧ fetch_json (HttpResult.exn : HttpResult α) = none := by
  refine ⟨rfl, ?_, rfl⟩
  intro s hs
  simp [fetch_json, hs]

/-- C5 witness: concrete 200, 404 and exception fetches. -/
theorem C5_witness :
    fetch_json (HttpResult.resp 200 ([] : Dict)) = some []
  ∧ fetch_json (HttpResult.resp 404 ([] : Dict)) = none
  ∧ fetch_json (HttpResult.exn : HttpResult Dict) = none :=
  ⟨(C5_fetch_json_behaviour []).1,
    (C5_fetch_json_behaviour ([] : Dict)).2.1 404 (by decide),
    (C5_fetch_json_behaviour ([] : Dict)).2.2⟩

/-! ## Claim C6 -/

/-- C6: a listing response that is a single object is normalized to a
one-element collection and its single entry is processed: a directory entry
makes the walk recurse into it (and yield exactly that subtree's uploads),
and a `.v` file entry yields exactly that one upload. -/
theorem C6_single_listing_normalized (env : String → String → HttpResult ListingData)
    (branch : String) (fuel : Nat) (path : String) (d : Item) :
    (fetch_json (env branch path) = some (ListingData.single d) →
      d.type = "dir" →
      get_verilog_files_from_repo env branch (fuel + 1) path =
        get_verilog_files_from_repo env branch fuel d.path)
  ∧ (fetch_json (env branch path) = some (ListingData.single d) →
      d.type = "file" → endswith d.name ".v" = true →
      get_verilog_files_from_repo env branch (fuel + 1) path =
        [⟨d.download_url, d.path, d.name⟩]) := by
  constructor
  · intro hfetch hdir
    simp only [get_verilog_files_from_repo, hfetch]
    simp [hdir]
  · intro hfetch hfile hv
    simp only [get_verilog_files_from_repo, hfetch]
    simp [hfile, hv]

/-- C6 witness: a single-file listing yields its one upload; a
single-directory listing recurses into the directory. -/
theorem C6_witness :
    (get_verilog_files_from_repo
        (fun _ q => if q = "sub" then
          HttpResult.resp 200 (ListingData.single ⟨"file", "top.v", "sub/top.v", "u"⟩)
          else HttpResult.exn) "main" 1 "sub"
      = [⟨"u", "sub/top.v", "top.v"⟩])
  ∧ (get_verilog_files_from_repo
        (fun _ q => if q = "" then
          HttpResult.resp 200 (ListingData.single ⟨"dir", "sub", "sub", ""⟩)
          else HttpResult.exn) "main" 2 ""
      = get_verilog_files_from_repo
        (fun _ q => if q = "" then
          HttpResult.resp 200 (ListingData.single ⟨"dir", "sub", "sub", ""⟩)
          else HttpResult.exn) "main" 1 "sub") :=
  ⟨(C6_single_listing_normalized _ "main" 0 "sub" ⟨"file", "top.v", "sub/top.v", "u"⟩).2
      rfl rfl rfl,
    (C6_single_listing_normalized _ "main" 1 "" ⟨"dir", "sub", "sub", ""⟩).1
      rfl rfl⟩

/-! ## Claim C7 -/

/-- C7 (counterexample): a write exception is NOT retried identically to
conflict handling — the version token is not re-fetched. At the same
concrete input (existence check supplies token "old"; the re-fetch endpoint
would supply "fresh"), an exception on attempt 1 leads to attempt 2 being
issued with the stale token "old", whereas a 409 on attempt 1 leads to
attempt 2 being issued with the re-fetched token "fresh". The backoff
delay before the retry is 1 second in both runs. -/
theorem C7_counterexample :
    ((upload_verilog_file_to_target (DownloadResult.resp 200 [])
        (GetResult.resp 200 [("sha", "old")])
        (fun k => if k = 1 then PutResult.exn else PutResult.resp 200)
        (fun _ => GetResult.resp 200 [("sha", "fresh")])
        "a/b".toList "f.v".toList "f.v".toList).attemptPayloads.map Payload.sha
      = [some "old", some "old"])
  ∧ ((upload_verilog_file_to_target (DownloadResult.resp 200 [])
        (GetResult.resp 200 [("sha", "old")])
        (fun k => if k = 1 then PutResult.resp 409 else PutResult.resp 200)
        (fun _ => GetResult.resp 200 [("sha", "fresh")])
        "a/b".toList "f.v".toList "f.v".toList).attemptPayloads.map Payload.sha
      = [some "old", some "fresh"])
  ∧ ((upload_verilog_file_to_target (DownloadResult.resp 200 [])
        (GetResult.resp 200 [("sha", "old")])
        (fun k => if k = 1 then PutResult.exn else PutResult.resp 200)
        (fun _ => GetResult.resp 200 [("sha", "fresh")])
        "a/b".toList "f.v".toList "f.v".toList).delays = [1])
  ∧ ((upload_verilog_file_to_target (DownloadResult.resp 200 [])
        (GetResult.resp 200 [("sha", "old")])
        (fun k => if k = 1 then PutResult.resp 409 else PutResult.resp 200)
        (fun _ => GetResult.resp 200 [("sha", "fresh")])
        "a/b".toList "f.v".toList "f.v".toList).delays = [1]) :=
  ⟨rfl, rfl, rfl, rfl⟩

/-- C7 (amended): on a write exception with attempts remaining the task
sleeps the current backoff delay (the same doubling schedule as conflict
handling: 1s then 2s) and retries with the payload unchanged — no re-fetch
of the version token; when no attempts remain the task terminates as a
failure. Shown for a run whose every attempt raises: the outcome is the
exception-exhausted failure, the delays are [1, 2], and all three attempts
were issued with the identical initial payload. -/
theorem C7_exception_retry_amended (content : List Nat) (check : GetResult)
    (put : Nat → PutResult) (refetch : Nat → GetResult) (r p n : List Char)
    (hput : ∀ k, put k = PutResult.exn) :
    (upload_verilog_file_to_target (DownloadResult.resp 200 content) check
        put refetch r p n).outcome = UploadOutcome.exceptionExhausted
  ∧ (upload_verilog_file_to_target (DownloadResult.resp 200 content) check
        put refetch r p n).delays = [1, 2]
  ∧ (upload_verilog_file_to_target (DownloadResult.resp 200 content) check
        put refetch r p n).attemptPayloads
      = List.replicate 3 (initialPayload (target_path r p n)
          (base64Encode content) (parseCheckResponse check)) := by
  have hp : put = fun _ => PutResult.exn := funext hput
  subst hp
  exact ⟨rfl, rfl, rfl⟩

/-- C7 witness: a concrete all-exception run. -/
theorem C7_witness :
    (upload_verilog_file_to_target (DownloadResult.resp 200 [])
        (GetResult.resp 200 [("sha", "old")]) (fun _ => PutResult.exn)
        (fun _ => GetResult.exn)
        "a/b".toList "f.v".toList "f.v".toList).outcome
      = UploadOutcome.exceptionExhausted ∧
      (upload_verilog_file_to_target (DownloadResult.resp 200 [])
        (GetResult.resp 200 [("sha", "old")]) (fun _ => PutResult.exn)
        (fun _ => GetResult.exn)
        "a/b".toList "f.v".toList "f.v".toList).delays = [1, 2] ∧
      (upload_verilog_file_to_target (DownloadResult.resp 200 [])
        (GetResult.resp 200 [("sha", "old")]) (fun _ => PutResult.exn)
        (fun _ => GetResult.exn)
        "a/b".toList "f.v".toList "f.v".toList).attemptPayloads
      = List.replicate 3 (initialPayload
          (target_path "a/b".toList "f.v".toList "f.v".toList)
          (base64Encode [])
          (parseCheckResponse (GetResult.resp 200 [("sha", "old")]))) :=
  C7_exception_retry_amended [] (GetResult.resp 200 [("sha", "old")]) _ _ _ _ _
    (fun _ => rfl)

/-! ## Claim C8 -/

/-- C8: a write attempt that returns a failure status other than 409 (and
other than the 200/201 success statuses) terminates the task immediately as
permanently-failed, with no backoff sleep and no further write attempts,
regardless of the remaining retry budget. -/
theorem C8_non409_failure_terminal (put : Nat → PutResult)
    (refetch : Nat → GetResult) (mr fuel attempt : Nat) (payload : Payload)
    (delay : Nat) (s : Nat) (hs : put attempt = PutResult.resp s)
    (h200 : s ≠ 200) (h201 : s ≠ 201) (h409 : s ≠ 409) :
    runAttempts put refetch mr (fuel + 1) attempt payload delay =
      ⟨UploadOutcome.permanentFailure, [], [payload]⟩ := by
  simp only [runAttempts, hs]
  simp [h200, h201, h409]

/-- C8 witness: a 500 on the first attempt with two attempts of budget left
is terminal. -/
theorem C8_witness :
    runAttempts (fun _ => PutResult.resp 500) (fun _ => GetResult.exn) 3 3 1
        { message := [], content := [], branch := "data_collection", sha := none } 1 =
      ⟨UploadOutcome.permanentFailure, [],
        [{ message := [], content := [], branch := "data_collection", sha := none }]⟩ :=
  C8_non409_failure_terminal _ _ 3 2 1 _ 1 500 rfl (by decide) (by decide) (by decide)

/-! ## Claim C9 -/

/-- C9: `process_repo` resolves the default branch with a single metadata
fetch — the fetched `default_branch` field on a truthy 200 response, the
fallback `"master"` on any other status or an exception — and invokes the
tree walker at that branch's root path (the empty path). -/
theorem C9_process_repo_resolves_branch (m : HttpResult Dict)
    (env : String → String → HttpResult ListingData) (fuel : Nat) :
    process_repo m env fuel =
      (get_repo_default_branch m,
        get_verilog_files_from_repo env (get_repo_default_branch m) fuel "")
  ∧ (∀ (d : Dict) (b : String), dictLookup "default_branch" d = some b →
      get_repo_default_branch (HttpResult.resp 200 d) = b)
  ∧ (∀ (s : Nat) (d : Dict), s ≠ 200 →
      get_repo_default_branch (HttpResult.resp s d) = "master")
  ∧ get_repo_default_branch (HttpResult.exn : HttpResult Dict) = "master" := by
  refine ⟨rfl, ?_, ?_, rfl⟩
  · intro d b h
    have hd := dictLookup_ne_nil h
    simp [get_repo_default_branch, fetch_json, hd, h]
  · intro s d hs
    simp [get_repo_default_branch, fetch_json, hs]

/-- C9 witness: metadata giving branch "main" walks from the root of "main";
a 404 metadata fetch falls back to "master". -/
theorem C9_witness :
    process_repo (HttpResult.resp 200 [("default_branch", "main")])
        (fun _ _ => HttpResult.exn) 1 = ("main", [])
  ∧ get_repo_default_branch (HttpResult.resp 404 ([] : Dict)) = "master" := by
  have h := C9_process_repo_resolves_branch
    (HttpResult.resp 200 [("default_branch", "main")]) (fun _ _ => HttpResult.exn) 1
  constructor
  · rw [h.1, h.2.1 [("default_branch", "main")] "main" rfl]
    rfl
  · exact h.2.2.1 404 [] (by decide)

/-! ## Claim C10 -/

/-- C10: when the destination-existence lookup raises an exception, the
exception is swallowed and the file is treated as absent: the first write
attempt's payload omits the version token, so the write proceeds as a
create. -/
theorem C10_check_exception_treated_absent (content : List Nat)
    (put : Nat → PutResult) (refetch : Nat → GetResult) (r p n : List Char) :
    ((upload_verilog_file_to_target (DownloadResult.resp 200 content)
        GetResult.exn put refetch r p n).attemptPayloads.head?).map Payload.sha
      = some none := by
  have hhead : (upload_verilog_file_to_target (DownloadResult.resp 200 content)
      GetResult.exn put refetch r p n).attemptPayloads.head?
        = some (initialPayload (target_path r p n) (base64Encode content)
            (parseCheckResponse GetResult.exn)) :=
    runAttempts_head_payload put refetch max_retries 2 1 _ 1
  rw [hhead]
  simp [initialPayload, parseCheckResponse]

end VerilogScraper
